import Mathlib

/-!
Shallow embedding of the decision core of `src/Health_Report/app.py`:
the name normalizer (`normalize_test_name`), the record evaluator
(`evaluate_record`) and the disease-combination matcher
(`check_disease_combinations`), together with the static tables
(`NORMAL_RANGES`, `RECOMMENDATIONS`, `DISEASE_RULES`).

Modelling choices:
* Python numbers are modelled by `ℚ` (the reference bounds and the values
  appearing in the claims are small decimal fractions, on which Python
  float comparison agrees with exact rational comparison).
* A pandas cell is either a number or a string (`PyValue`).
* Python `dict`s are association lists in declaration order; `dict.get`
  is `List.lookup`.
* `int(...)` / `float(...)` raising `ValueError` is modelled by `Option`;
  the bare `except:` handlers of `evaluate_record` are modelled by the
  corresponding `none` branches.  `float` parsing is modelled for the
  sign / digits / decimal-point forms (no exponent, inf or nan forms);
  no claim depends on the exotic forms.
* Comparing a float with `None` raises `TypeError` in Python; in
  `evaluate_record` this happens for the `Blood Pressure` row of
  `NORMAL_RANGES` (bounds `None`) and is caught by the bare `except:`,
  leaving status `Unknown` and no suggestion.  The embedding models the
  bounds as `Option ℚ` and the comparison-with-`None` path explicitly.
-/

namespace HealthReport

/-- A pandas cell as seen by `evaluate_record`: a number or a string. -/
inductive PyValue where
  | num (q : ℚ)
  | str (s : String)
  deriving DecidableEq, Repr

/-- An input row: the `Test`, `Value`, `Unit` fields of a CSV record. -/
structure InRecord where
  Test : String
  Value : PyValue
  Unit : String
  deriving DecidableEq, Repr

/-- The dict returned by `evaluate_record`. -/
structure OutRecord where
  Test : String
  Value : PyValue
  Unit : String
  Status : String
  Recommendation : Option String
  deriving DecidableEq, Repr

/-- One entry of `DISEASE_RULES`. -/
structure DiseaseRule where
  conditions : List (String × String)
  disease : String
  advice : String
  deriving DecidableEq, Repr

/-- One element of the list returned by `check_disease_combinations`. -/
structure Finding where
  Disease : String
  Advice : String
  deriving DecidableEq, Repr

/-- `NORMAL_RANGES`: biomarker → (min, max, unit), in declaration order.
`None` bounds (the `Blood Pressure` row) are `Option.none`. -/
def NORMAL_RANGES : List (String × (Option ℚ × Option ℚ × String)) :=
  [ ("Hemoglobin", (some 12, some 16, "g/dL")),
    ("Vitamin D", (some 20, some 50, "ng/mL")),
    ("Cholesterol", (some 0, some 200, "mg/dL")),
    ("Glucose", (some 70, some 140, "mg/dL")),
    ("HDL", (some 40, some 60, "mg/dL")),
    ("LDL", (some 0, some 100, "mg/dL")),
    ("Triglycerides", (some 0, some 150, "mg/dL")),
    ("WBC", (some 4, some 11, "x10^3/µL")),
    ("RBC", (some (mkRat 45 10), some (mkRat 59 10), "x10^6/µL")),
    ("Platelets", (some 150, some 450, "x10^3/µL")),
    ("Blood Pressure", (none, none, "mmHg")) ]

/-- `RECOMMENDATIONS`, in declaration order. -/
def RECOMMENDATIONS : List (String × String) :=
  [ ("Hemoglobin_low", "Consider iron-rich foods (spinach, red meat, lentils). Consult physician for anemia evaluation."),
    ("Hemoglobin_high", "Could indicate dehydration or other issues; consult a doctor."),
    ("Vitamin D_low", "Increase sun exposure and consider Vitamin D supplementation after consulting a physician."),
    ("Vitamin D_high", "Excess supplements; consult doctor."),
    ("Cholesterol_high", "Reduce saturated fats, avoid processed foods, increase fiber and exercise. Consider lipid profile review with a doctor."),
    ("Cholesterol_low", "May indicate malnutrition or other issues."),
    ("Glucose_high", "Reduce sugar and refined carbs, increase physical activity, monitor blood glucose and consult doctor for diabetes evaluation."),
    ("Glucose_low", "Could cause hypoglycemia; eat balanced diet."),
    ("Blood Pressure_high", "Risk of hypertension; reduce salt, exercise."),
    ("Blood Pressure_low", "May cause dizziness; consult doctor."),
    ("default_low", "Value below normal — consider medical follow-up."),
    ("default_high", "Value above normal — consider medical follow-up.") ]

/-- `DISEASE_RULES`, in declaration order. -/
def DISEASE_RULES : List DiseaseRule :=
  [ { conditions := [("Hemoglobin", "High"), ("Cholesterol", "Low")],
      disease := "Possible Polycythemia or metabolic disorder",
      advice := "Consult a hematologist; unusual profile, detailed tests needed." },
    { conditions := [("Cholesterol", "High"), ("Glucose", "High"), ("Blood Pressure", "High")],
      disease := "Metabolic Syndrome",
      advice := "Risk of diabetes/heart disease; lifestyle changes strongly advised." },
    { conditions := [("Vitamin D", "Low"), ("Calcium", "Low")],
      disease := "Osteoporosis Risk",
      advice := "Bone weakness possible; increase Vitamin D and Calcium intake." } ]

/-- The alias `mapping` local to `normalize_test_name`, in declaration order. -/
def mapping : List (String × String) :=
  [ ("hb", "Hemoglobin"),
    ("hemoglobin", "Hemoglobin"),
    ("vit d", "Vitamin D"),
    ("vitamin d", "Vitamin D"),
    ("cholesterol total", "Cholesterol"),
    ("cholesterol", "Cholesterol"),
    ("glucose", "Glucose"),
    ("blood glucose", "Glucose"),
    ("sugar", "Glucose"),
    ("hdl", "HDL"),
    ("ldl", "LDL"),
    ("triglycerides", "Triglycerides"),
    ("wbc", "WBC"),
    ("rbc", "RBC"),
    ("platelets", "Platelets"),
    ("bp", "Blood Pressure"),
    ("blood pressure", "Blood Pressure") ]

/-- Python `str.lower()` (ASCII model, like `Char.toLower`). -/
def pyLower (s : String) : String := ⟨s.data.map Char.toLower⟩

/-- Leading and trailing whitespace removal on character lists. -/
def trimChars (cs : List Char) : List Char :=
  ((cs.dropWhile Char.isWhitespace).reverse.dropWhile Char.isWhitespace).reverse

/-- Python `str.strip()`. -/
def pyStrip (s : String) : String := ⟨trimChars s.data⟩

/-- Split a character list on a separator character; mirrors Python
`str.split(sep)` for a one-character separator. -/
def splitOnChar (sep : Char) : List Char → List (List Char)
  | [] => [[]]
  | c :: cs =>
    match splitOnChar sep cs with
    | [] => if c == sep then [[], []] else [[c]]
    | h :: t => if c == sep then [] :: h :: t else (c :: h) :: t

/-- Python `sep in s` for a one-character probe (`'/' in value`). -/
def hasChar (s : String) (c : Char) : Bool := s.data.any (· == c)

/-- `k.isPrefixB s`: `k` is a prefix of `s` (character lists). -/
def isPrefixB : List Char → List Char → Bool
  | [], _ => true
  | _ :: _, [] => false
  | a :: as, b :: bs => a == b && isPrefixB as bs

/-- `isInfixB k s`: `k` occurs contiguously inside `s` (Python `k in s`). -/
def isInfixB (k : List Char) : List Char → Bool
  | [] => List.isEmpty k
  | b :: bs => isPrefixB k (b :: bs) || isInfixB k bs

/-- Python `k in name` for strings. -/
def containsSub (k s : String) : Bool := isInfixB k.data s.data

/-- One step of Python `str.title()`: the flag says whether the previous
character was alphabetic (i.e. we are inside a word). -/
def titleAux : Bool → List Char → List Char
  | _, [] => []
  | prev, c :: cs =>
    if c.isAlpha then
      (if prev then c.toLower else c.toUpper) :: titleAux true cs
    else
      c :: titleAux false cs

/-- Python `str.title()` (ASCII model). -/
def titlePy (s : String) : String := ⟨titleAux false s.data⟩

/-- `normalize_test_name` from `app.py`: lower-case and strip, exact alias
lookup, then first alias occurring as a substring (declaration order),
then `str.title()` fallback. -/
def normalize_test_name (name : String) : String :=
  let n := pyStrip (pyLower name)
  match List.lookup n mapping with
  | some v => v
  | none =>
    match mapping.find? (fun kv => containsSub kv.1 n) with
    | some kv => kv.2
    | none => titlePy n

/-- Value of a digit character. -/
def digitVal (c : Char) : ℕ := c.toNat - 48

/-- Value of a digit string. -/
def digitsVal (cs : List Char) : ℕ := cs.foldl (fun a c => a * 10 + digitVal c) 0

/-- Strip an optional leading sign; returns whether the sign was `-`
and the remaining characters. -/
def stripSign : List Char → Bool × List Char
  | '-' :: cs => (true, cs)
  | '+' :: cs => (false, cs)
  | cs => (false, cs)

/-- Python `int(s)`: optional surrounding whitespace, optional sign,
then a nonempty run of digits; anything else raises (here `none`). -/
def parseIntPy (s : String) : Option ℤ :=
  let (neg, ds) := stripSign (trimChars s.data)
  if ds.isEmpty then none
  else if ds.all Char.isDigit then
    some (if neg then -(digitsVal ds : ℤ) else (digitsVal ds : ℤ))
  else none

/-- Python `float(s)` restricted to sign / digits / decimal-point forms
(no exponent, inf or nan). -/
def parseFloatPy (s : String) : Option ℚ :=
  let (neg, body) := stripSign (trimChars s.data)
  let signed : ℚ → ℚ := fun q => if neg then -q else q
  match splitOnChar '.' body with
  | [a] =>
    if a.isEmpty then none
    else if a.all Char.isDigit then some (signed (digitsVal a : ℚ))
    else none
  | [a, b] =>
    if a.isEmpty && b.isEmpty then none
    else if a.all Char.isDigit && b.all Char.isDigit then
      some (signed (mkRat (digitsVal a * 10 ^ b.length + digitsVal b) (10 ^ b.length)))
    else none
  | _ => none

/-- Python `float(value)` on a cell: numbers pass through, strings are
parsed. -/
def floatOf : PyValue → Option ℚ
  | .num q => some q
  | .str s => parseFloatPy s

/-- The `value.split('/')`-and-`int` parse of the blood-pressure branch:
exactly two slash-separated fields, each a Python `int`; any failure is
the bare `except:` (`none`). -/
def parseBP (s : String) : Option (ℤ × ℤ) :=
  match splitOnChar '/' s.data with
  | [a, b] =>
    match parseIntPy ⟨a⟩, parseIntPy ⟨b⟩ with
    | some sys, some dia => some (sys, dia)
    | _, _ => none
  | _ => none

/-- Does the cell take the blood-pressure branch
(`isinstance(value, str) and '/' in value`)? -/
def isSlashStr : PyValue → Bool
  | .num _ => false
  | .str s => hasChar s '/'

/-- The blood-pressure pair a cell yields, if any: strings containing a
slash are parsed by the blood-pressure branch, everything else has no
slash pair. -/
def slashPairOf : PyValue → Option (ℤ × ℤ)
  | .num _ => none
  | .str s => if hasChar s '/' then parseBP s else none

/-- The classification of the blood-pressure branch of `evaluate_record`. -/
def bpStatus (sys dia : ℤ) : String :=
  if sys < 90 || dia < 60 then "Low"
  else if sys ≤ 120 && dia ≤ 80 then "Normal"
  else if sys ≤ 139 || dia ≤ 89 then "Elevated"
  else "High"

/-- `RECOMMENDATIONS.get(key, RECOMMENDATIONS.get(fallback))`. -/
def getRec (key fallback : String) : Option String :=
  match List.lookup key RECOMMENDATIONS with
  | some v => some v
  | none => List.lookup fallback RECOMMENDATIONS

/-- The numeric branch of `evaluate_record`, given the canonical test
name and the parsed value.  Option bounds model Python `None`: a
comparison against a `None` bound raises `TypeError`, caught by the bare
`except:` (status stays `Unknown`, suggestion stays `None`). -/
def evalNumeric (test : String) (val : ℚ) : String × Option String :=
  match List.lookup test NORMAL_RANGES with
  | none => ("Unknown", some "No reference range available for this test.")
  | some (mnO, mxO, _u) =>
    match mnO with
    | none => ("Unknown", none)
    | some mn =>
      if val < mn then ("Low", getRec (test ++ "_low") "default_low")
      else
        match mxO with
        | none => ("Unknown", none)
        | some mx =>
          if val > mx then ("High", getRec (test ++ "_high") "default_high")
          else ("Normal", some "Within normal range.")

/-- `evaluate_record` from `app.py`. -/
def evaluate_record (rec : InRecord) : OutRecord :=
  let test := normalize_test_name rec.Test
  let value := rec.Value
  let (status, suggestion) :=
    if isSlashStr value then
      match value with
      | .str s =>
        match parseBP s with
        | none => ("Unknown", none)
        | some (sys, dia) =>
          let st := bpStatus sys dia
          (st, List.lookup
                 (if st = "Elevated" || st = "High" then "default_high" else "default_low")
                 RECOMMENDATIONS)
      | .num _ => ("Unknown", none)
    else
      match floatOf value with
      | none => ("Unknown", none)
      | some val => evalNumeric test val
  { Test := test, Value := value, Unit := rec.Unit,
    Status := status, Recommendation := suggestion }

/-- The evaluation loop of the `index` route:
`evaluated = [evaluate_record(r) for r in records]`. -/
def evaluateAll (records : List InRecord) : List OutRecord :=
  records.map evaluate_record

/-- A decidable check on a range-table row: when both bounds are numeric
the minimum is at most the maximum. -/
def rangeOK (p : String × (Option ℚ × Option ℚ × String)) : Bool :=
  match p.2.1, p.2.2.1 with
  | some mn, some mx => decide (mn ≤ mx)
  | _, _ => true

/-- Does a rule match the evaluated set?  Mirrors the inner loop of
`check_disease_combinations`: every `(test, status)` condition must be
matched by some row of the results. -/
def ruleMatches (results : List OutRecord) (rule : DiseaseRule) : Bool :=
  rule.conditions.all fun c =>
    results.any fun r => r.Test == c.1 && r.Status == c.2

/-- `check_disease_combinations` from `app.py`. -/
def check_disease_combinations (results : List OutRecord) : List Finding :=
  DISEASE_RULES.filterMap fun rule =>
    if ruleMatches results rule then
      some { Disease := rule.disease, Advice := rule.advice }
    else none

/-! ### General lemmas about the embedding -/

/-- A successful association-list lookup locates its pair in the list. -/
theorem mem_of_lookup {α β} [BEq α] [LawfulBEq α] {k : α} {b : β}
    {l : List (α × β)} (h : List.lookup k l = some b) : (k, b) ∈ l := by
  rcases List.lookup_eq_some_iff.mp h with ⟨l₁, l₂, rfl, -⟩
  simp

/-- `filterMap` with an `if`-`some`-`none` body is a filter followed by a
map; this is the shape of `check_disease_combinations`. -/
theorem filterMap_if {α β} (p : α → Bool) (f : α → β) (l : List α) :
    l.filterMap (fun x => if p x then some (f x) else none)
      = (l.filter p).map f := by
  induction l with
  | nil => rfl
  | cons a t ih =>
    by_cases h : p a <;>
      simp [List.filterMap_cons, List.filter_cons, h, ih]

/-- Evaluating a numeric cell goes through the numeric branch. -/
theorem evaluate_record_num (t : String) (q : ℚ) (u : String) :
    evaluate_record ⟨t, .num q, u⟩ =
      { Test := normalize_test_name t, Value := .num q, Unit := u,
        Status := (evalNumeric (normalize_test_name t) q).1,
        Recommendation := (evalNumeric (normalize_test_name t) q).2 } := rfl

/-- Evaluating a slash-free string whose float parse fails yields
`Unknown` with no recommendation. -/
theorem evaluate_record_str_fail (t s u : String)
    (hc : hasChar s '/' = false) (hq : parseFloatPy s = none) :
    evaluate_record ⟨t, .str s, u⟩ =
      { Test := normalize_test_name t, Value := .str s, Unit := u,
        Status := "Unknown", Recommendation := none } := by
  simp [evaluate_record, isSlashStr, hc, floatOf, hq]

/-- Evaluating a slash-free string that parses as a float goes through
the numeric branch. -/
theorem evaluate_record_str_num (t s u : String) (val : ℚ)
    (hc : hasChar s '/' = false) (hq : parseFloatPy s = some val) :
    evaluate_record ⟨t, .str s, u⟩ =
      { Test := normalize_test_name t, Value := .str s, Unit := u,
        Status := (evalNumeric (normalize_test_name t) val).1,
        Recommendation := (evalNumeric (normalize_test_name t) val).2 } := by
  simp [evaluate_record, isSlashStr, hc, floatOf, hq]

/-- Evaluating a slash string whose split-and-int parse fails yields
`Unknown` with no recommendation. -/
theorem evaluate_record_bp_fail (t s u : String)
    (hc : hasChar s '/' = true) (hp : parseBP s = none) :
    evaluate_record ⟨t, .str s, u⟩ =
      { Test := normalize_test_name t, Value := .str s, Unit := u,
        Status := "Unknown", Recommendation := none } := by
  simp [evaluate_record, isSlashStr, hc, hp]

/-- Evaluating a slash string that parses as a systolic/diastolic pair
classifies by `bpStatus` and attaches the generic high or low message. -/
theorem evaluate_record_bp (t s u : String) (sys dia : ℤ)
    (hc : hasChar s '/' = true) (hp : parseBP s = some (sys, dia)) :
    evaluate_record ⟨t, .str s, u⟩ =
      { Test := normalize_test_name t, Value := .str s, Unit := u,
        Status := bpStatus sys dia,
        Recommendation :=
          if bpStatus sys dia = "Elevated" ∨ bpStatus sys dia = "High" then
            List.lookup "default_high" RECOMMENDATIONS
          else
            List.lookup "default_low" RECOMMENDATIONS } := by
  simp only [evaluate_record, isSlashStr, hc, if_true, hp]
  by_cases h : bpStatus sys dia = "Elevated" ∨ bpStatus sys dia = "High" <;>
    simp [h]

/-- `bpStatus` only produces the four blood-pressure buckets. -/
theorem bpStatus_mem (sys dia : ℤ) :
    bpStatus sys dia ∈ (["Low", "Normal", "Elevated", "High"] : List String) := by
  unfold bpStatus
  split_ifs <;> simp

/-- `bpStatus` never produces `Unknown`. -/
theorem bpStatus_ne_unknown (sys dia : ℤ) : bpStatus sys dia ≠ "Unknown" := by
  unfold bpStatus
  split_ifs <;> decide

/-- The numeric branch only produces `Low`, `Normal`, `High`, `Unknown`. -/
theorem evalNumeric_status_mem (t : String) (v : ℚ) :
    (evalNumeric t v).1 ∈ (["Low", "Normal", "High", "Unknown"] : List String) := by
  unfold evalNumeric
  cases List.lookup t NORMAL_RANGES with
  | none => simp
  | some e =>
    obtain ⟨mnO, mxO, u'⟩ := e
    cases mnO with
    | none => simp
    | some mn =>
      by_cases h1 : v < mn
      · simp [h1]
      · cases mxO with
        | none => simp [h1]
        | some mx => by_cases h2 : v > mx <;> simp [h1, h2]

/-- When the numeric branch reports `Unknown`, its recommendation is
either absent or the generic no-reference-range message. -/
theorem evalNumeric_unknown_rec (t : String) (v : ℚ) :
    (evalNumeric t v).1 = "Unknown" →
      (evalNumeric t v).2 = none ∨
        (evalNumeric t v).2 = some "No reference range available for this test." := by
  unfold evalNumeric
  cases List.lookup t NORMAL_RANGES with
  | none => simp
  | some e =>
    obtain ⟨mnO, mxO, u'⟩ := e
    cases mnO with
    | none => simp
    | some mn =>
      by_cases h1 : v < mn
      · simp only [h1, if_true]
        intro h
        exact absurd h (by decide)
      · cases mxO with
        | none => simp [h1]
        | some mx =>
          by_cases h2 : v > mx <;>
            · simp only [h1, h2, if_true, if_false]
              intro h
              exact absurd h (by decide)

/-- When the numeric branch reports `Low`, the test has a range with a
numeric minimum. -/
theorem evalNumeric_low (t : String) (v : ℚ) :
    (evalNumeric t v).1 = "Low" →
      ∃ mn mxO u, List.lookup t NORMAL_RANGES = some (some mn, mxO, u) ∧ v < mn := by
  cases hl : List.lookup t NORMAL_RANGES with
  | none =>
    unfold evalNumeric
    rw [hl]
    simp
  | some e =>
    obtain ⟨mnO, mxO, u'⟩ := e
    unfold evalNumeric
    rw [hl]
    cases mnO with
    | none => simp
    | some mn =>
      by_cases h1 : v < mn
      · exact fun _ => ⟨mn, mxO, u', rfl, h1⟩
      · cases mxO with
        | none => simp [h1]
        | some mx =>
          by_cases h2 : v > mx <;>
            · simp only [h1, h2, if_true, if_false]
              intro h
              exact absurd h (by decide)

/-- Each canonical name in the range table normalizes to itself. -/
theorem ranges_normalize_fix :
    ∀ p ∈ NORMAL_RANGES, normalize_test_name p.1 = p.1 := by decide

/-- Each range-table row with two numeric bounds has min ≤ max. -/
theorem ranges_rangeOK : ∀ p ∈ NORMAL_RANGES, rangeOK p = true := by decide

/-- The test-specific or generic recommendations attached by the numeric
branch for tests that have a numeric minimum are never the two
blood-pressure-specific entries. -/
theorem ranges_rec_ne_bp :
    ∀ p ∈ NORMAL_RANGES, p.2.1 ≠ none →
      (getRec (p.1 ++ "_low") "default_low" ≠ some "May cause dizziness; consult doctor."
        ∧ getRec (p.1 ++ "_low") "default_low" ≠ some "Risk of hypertension; reduce salt, exercise.")
      ∧ (getRec (p.1 ++ "_high") "default_high" ≠ some "May cause dizziness; consult doctor."
        ∧ getRec (p.1 ++ "_high") "default_high" ≠ some "Risk of hypertension; reduce salt, exercise.") := by
  decide

/-- The numeric branch never attaches either blood-pressure-specific
recommendation. -/
theorem evalNumeric_rec_ne_bp (t : String) (v : ℚ) :
    (evalNumeric t v).2 ≠ some "May cause dizziness; consult doctor."
  ∧ (evalNumeric t v).2 ≠ some "Risk of hypertension; reduce salt, exercise." := by
  cases hl : List.lookup t NORMAL_RANGES with
  | none =>
    unfold evalNumeric
    rw [hl]
    dsimp only
    exact ⟨by decide, by decide⟩
  | some e =>
    obtain ⟨mnO, mxO, u'⟩ := e
    have hmem := mem_of_lookup hl
    unfold evalNumeric
    rw [hl]
    dsimp only
    cases mnO with
    | none => simp
    | some mn =>
      have hb := ranges_rec_ne_bp _ hmem (by simp)
      by_cases h1 : v < mn
      · simp only [h1, if_true]
        exact ⟨hb.1.1, hb.1.2⟩
      · cases mxO with
        | none => simp [h1]
        | some mx =>
          by_cases h2 : v > mx
          · simp only [h1, h2, if_true, if_false]
            exact ⟨hb.2.1, hb.2.2⟩
          · simp only [h1, h2, if_false]
            exact ⟨by decide, by decide⟩

/-- With a numeric minimum and maximum in the table, the numeric branch
classifies by the two inclusive comparisons. -/
theorem evalNumeric_status_char (name : String) (mn mx : ℚ) (u' : String)
    (h : List.lookup name NORMAL_RANGES = some (some mn, some mx, u')) (v : ℚ) :
    (evalNumeric name v).1
      = if v < mn then "Low" else if mx < v then "High" else "Normal" := by
  unfold evalNumeric
  rw [h]
  by_cases h1 : v < mn
  · simp [h1]
  · by_cases h2 : mx < v <;> simp [h1, h2]

/-! ### Claims -/

/-- C2: the blood-pressure thresholds (`diastolic<60` or `systolic<90`
gives Low; `systolic≤120` and `diastolic≤80` gives Normal; `systolic≤139`
or `diastolic≤89` gives Elevated; otherwise High) classify `"119/79"` as
Normal, `"140/90"` as High, `"125/85"` as Elevated and `"85/55"` as Low. -/
theorem bp_threshold_classification :
    ((evaluate_record ⟨"Blood Pressure", .str "119/79", ""⟩).Status = "Normal"
      ∧ (evaluate_record ⟨"Blood Pressure", .str "140/90", ""⟩).Status = "High"
      ∧ (evaluate_record ⟨"Blood Pressure", .str "125/85", ""⟩).Status = "Elevated"
      ∧ (evaluate_record ⟨"Blood Pressure", .str "85/55", ""⟩).Status = "Low")
  ∧ ∀ sys dia : ℤ,
      ((sys < 90 ∨ dia < 60) → bpStatus sys dia = "Low")
      ∧ (¬(sys < 90 ∨ dia < 60) → (sys ≤ 120 ∧ dia ≤ 80) →
          bpStatus sys dia = "Normal")
      ∧ (¬(sys < 90 ∨ dia < 60) → ¬(sys ≤ 120 ∧ dia ≤ 80) →
          (sys ≤ 139 ∨ dia ≤ 89) → bpStatus sys dia = "Elevated")
      ∧ (¬(sys < 90 ∨ dia < 60) → ¬(sys ≤ 120 ∧ dia ≤ 80) →
          ¬(sys ≤ 139 ∨ dia ≤ 89) → bpStatus sys dia = "High") := by
  refine ⟨⟨by decide, by decide, by decide, by decide⟩, ?_⟩
  intro sys dia
  simp only [bpStatus, Bool.or_eq_true, Bool.and_eq_true, decide_eq_true_eq]
  refine ⟨fun h => ?_, fun h1 h2 => ?_, fun h1 h2 h3 => ?_,
    fun h1 h2 h3 => ?_⟩ <;>
    split_ifs <;> first | rfl | (exfalso; omega)

/-- C2 witness: the theorem applied at systolic 150, diastolic 95, where
none of the Low/Normal/Elevated guards hold, so the status is High. -/
theorem bp_threshold_classification_witness :
    bpStatus 150 95 = "High" :=
  (bp_threshold_classification.2 150 95).2.2.2
    (by decide) (by decide) (by decide)

/-- C8: record evaluation is deterministic — equal inputs (single records
or whole record sets) evaluate to equal outputs.  Side-effect freedom is
reflected by the embedding: `evaluate_record` is a pure function of its
argument and the static tables are constants. -/
theorem evaluation_deterministic :
    (∀ r₁ r₂ : InRecord, r₁ = r₂ → evaluate_record r₁ = evaluate_record r₂)
  ∧ (∀ l₁ l₂ : List InRecord, l₁ = l₂ → evaluateAll l₁ = evaluateAll l₂) :=
  ⟨fun _ _ h => h ▸ rfl, fun _ _ h => h ▸ rfl⟩

/-- C8 witness: determinism at a concrete record and a concrete batch. -/
theorem evaluation_deterministic_witness :
    evaluate_record ⟨"Hemoglobin", .num 13, "g/dL"⟩
      = evaluate_record ⟨"Hemoglobin", .num 13, "g/dL"⟩
  ∧ evaluateAll [⟨"bp", .str "120/80", ""⟩]
      = evaluateAll [⟨"bp", .str "120/80", ""⟩] :=
  ⟨evaluation_deterministic.1 _ _ rfl, evaluation_deterministic.2 _ _ rfl⟩

/-- C5: evaluation is total; a value that is neither a parseable number
nor a parseable slash-separated pair of integers yields status Unknown
with no recommendation, and a batch produces exactly one output row per
input row. -/
theorem unparsable_value_unknown :
    (∀ rec : InRecord, floatOf rec.Value = none → slashPairOf rec.Value = none →
        (evaluate_record rec).Status = "Unknown"
      ∧ (evaluate_record rec).Recommendation = none)
  ∧ ∀ records : List InRecord, (evaluateAll records).length = records.length := by
  constructor
  · rintro ⟨t, v, u⟩ h1 h2
    cases v with
    | num q => simp [floatOf] at h1
    | str s =>
      by_cases hc : hasChar s '/' = true
      · simp only [slashPairOf, hc, if_true] at h2
        simp [evaluate_record, isSlashStr, hc, h2]
      · simp only [floatOf] at h1
        simp [evaluate_record, isSlashStr, hc, floatOf, h1]
  · intro l
    simp [evaluateAll]

/-- C5 witness: the theorem applied to the unparseable value `"abc"`. -/
theorem unparsable_value_unknown_witness :
    (evaluate_record ⟨"X", .str "abc", ""⟩).Status = "Unknown"
  ∧ (evaluate_record ⟨"X", .str "abc", ""⟩).Recommendation = none :=
  unparsable_value_unknown.1 ⟨"X", .str "abc", ""⟩ (by decide) (by decide)

/-- C7: every evaluated record has a status among
Low/Normal/High/Elevated/Unknown, and a record with Unknown status
carries either no recommendation or only the generic
no-reference-range message. -/
theorem status_closed_and_unknown_generic (rec : InRecord) :
    (evaluate_record rec).Status
        ∈ (["Low", "Normal", "High", "Elevated", "Unknown"] : List String)
  ∧ ((evaluate_record rec).Status = "Unknown" →
      (evaluate_record rec).Recommendation = none ∨
        (evaluate_record rec).Recommendation
          = some "No reference range available for this test.") := by
  obtain ⟨t, v, u⟩ := rec
  cases v with
  | num q =>
    rw [evaluate_record_num]
    refine ⟨?_, ?_⟩
    · have hm := evalNumeric_status_mem (normalize_test_name t) q
      simp only [List.mem_cons, List.mem_singleton] at hm ⊢
      tauto
    · exact evalNumeric_unknown_rec _ _
  | str s =>
    by_cases hc : hasChar s '/' = true
    · cases hp : parseBP s with
      | none =>
        rw [evaluate_record_bp_fail t s u hc hp]
        exact ⟨by simp, fun _ => Or.inl rfl⟩
      | some p =>
        obtain ⟨sys, dia⟩ := p
        rw [evaluate_record_bp t s u sys dia hc hp]
        refine ⟨?_, ?_⟩
        · have hm := bpStatus_mem sys dia
          simp only [List.mem_cons, List.mem_singleton] at hm ⊢
          tauto
        · intro h
          exact absurd h (bpStatus_ne_unknown sys dia)
    · rw [Bool.not_eq_true] at hc
      cases hq : parseFloatPy s with
      | none =>
        rw [evaluate_record_str_fail t s u hc hq]
        exact ⟨by simp, fun _ => Or.inl rfl⟩
      | some val =>
        rw [evaluate_record_str_num t s u val hc hq]
        refine ⟨?_, ?_⟩
        · have hm := evalNumeric_status_mem (normalize_test_name t) val
          simp only [List.mem_cons, List.mem_singleton] at hm ⊢
          tauto
        · exact evalNumeric_unknown_rec _ _

/-- C7 witness: the theorem applied to the record `("Foo", 1)`, whose
status is Unknown. -/
theorem status_closed_and_unknown_generic_witness :
    (evaluate_record ⟨"Foo", .num 1, ""⟩).Recommendation = none ∨
      (evaluate_record ⟨"Foo", .num 1, ""⟩).Recommendation
        = some "No reference range available for this test." :=
  (status_closed_and_unknown_generic ⟨"Foo", .num 1, ""⟩).2 (by decide)

/-- C9: a successfully parsed blood-pressure value that classifies as
Normal is given the generic low message, not a within-normal-range
message, and the two blood-pressure-specific recommendation entries are
never attached to any evaluated record. -/
theorem bp_recommendation_quirk :
    (∀ rec : InRecord, isSlashStr rec.Value = true →
        (evaluate_record rec).Status = "Normal" →
        (evaluate_record rec).Recommendation
          = some "Value below normal — consider medical follow-up.")
  ∧ (∀ rec : InRecord,
        (evaluate_record rec).Recommendation
            ≠ some "May cause dizziness; consult doctor."
      ∧ (evaluate_record rec).Recommendation
            ≠ some "Risk of hypertension; reduce salt, exercise.") := by
  constructor
  · rintro ⟨t, v, u⟩ hs hn
    cases v with
    | num q => simp [isSlashStr] at hs
    | str s =>
      have hc : hasChar s '/' = true := by simpa [isSlashStr] using hs
      cases hp : parseBP s with
      | none =>
        rw [evaluate_record_bp_fail t s u hc hp] at hn
        simp at hn
      | some p =>
        obtain ⟨sys, dia⟩ := p
        rw [evaluate_record_bp t s u sys dia hc hp] at hn ⊢
        have hn' : bpStatus sys dia = "Normal" := hn
        show (if bpStatus sys dia = "Elevated" ∨ bpStatus sys dia = "High" then
            List.lookup "default_high" RECOMMENDATIONS
          else List.lookup "default_low" RECOMMENDATIONS) = _
        rw [hn']
        decide
  · rintro ⟨t, v, u⟩
    cases v with
    | num q =>
      rw [evaluate_record_num]
      exact evalNumeric_rec_ne_bp (normalize_test_name t) q
    | str s =>
      by_cases hc : hasChar s '/' = true
      · cases hp : parseBP s with
        | none =>
          rw [evaluate_record_bp_fail t s u hc hp]
          exact ⟨by simp, by simp⟩
        | some p =>
          obtain ⟨sys, dia⟩ := p
          rw [evaluate_record_bp t s u sys dia hc hp]
          constructor <;>
            · show (if _ then _ else _) ≠ _
              split_ifs <;> decide
      · rw [Bool.not_eq_true] at hc
        cases hq : parseFloatPy s with
        | none =>
          rw [evaluate_record_str_fail t s u hc hq]
          exact ⟨by simp, by simp⟩
        | some val =>
          rw [evaluate_record_str_num t s u val hc hq]
          exact evalNumeric_rec_ne_bp (normalize_test_name t) val

/-- C9 witness: the Normal blood pressure `"119/79"` gets the generic
low message. -/
theorem bp_recommendation_quirk_witness :
    (evaluate_record ⟨"Blood Pressure", .str "119/79", ""⟩).Recommendation
      = some "Value below normal — consider medical follow-up." :=
  bp_recommendation_quirk.1 ⟨"Blood Pressure", .str "119/79", ""⟩
    (by decide) (by decide)

/-- C1: for every biomarker whose table row has numeric bounds, a value
at either bound classifies as Normal, and the comparison is inclusive:
below the minimum is Low, above the maximum is High, everything in
between (bounds included) is Normal. -/
theorem inclusive_range_bounds (name : String) (mn mx : ℚ) (u : String)
    (h : List.lookup name NORMAL_RANGES = some (some mn, some mx, u)) :
    ((evaluate_record ⟨name, .num mn, ""⟩).Status = "Normal"
      ∧ (evaluate_record ⟨name, .num mx, ""⟩).Status = "Normal")
  ∧ ∀ v : ℚ,
      ((evaluate_record ⟨name, .num v, ""⟩).Status = "Low" ↔ v < mn)
    ∧ ((evaluate_record ⟨name, .num v, ""⟩).Status = "High" ↔ mx < v)
    ∧ ((evaluate_record ⟨name, .num v, ""⟩).Status = "Normal" ↔
        mn ≤ v ∧ v ≤ mx) := by
  have hmem := mem_of_lookup h
  have hn : normalize_test_name name = name := ranges_normalize_fix _ hmem
  have hle : mn ≤ mx := by
    have hr := ranges_rangeOK _ hmem
    simpa [rangeOK] using hr
  have key : ∀ v : ℚ, (evaluate_record ⟨name, .num v, ""⟩).Status
      = if v < mn then "Low" else if mx < v then "High" else "Normal" := by
    intro v
    rw [evaluate_record_num]
    show (evalNumeric (normalize_test_name name) v).1 = _
    rw [hn]
    exact evalNumeric_status_char name mn mx u h v
  constructor
  · constructor
    · rw [key mn, if_neg (lt_irrefl mn), if_neg (not_lt.mpr hle)]
    · rw [key mx, if_neg (not_lt.mpr hle), if_neg (lt_irrefl mx)]
  · intro v
    rw [key v]
    by_cases h1 : v < mn
    · rw [if_pos h1]
      exact ⟨iff_of_true rfl h1,
        iff_of_false (by decide) (fun hx => by linarith),
        iff_of_false (by decide) (fun hx => by linarith [hx.1])⟩
    · rw [if_neg h1]
      by_cases h2 : mx < v
      · rw [if_pos h2]
        exact ⟨iff_of_false (by decide) h1,
          iff_of_true rfl h2,
          iff_of_false (by decide) (fun hx => by linarith [hx.2])⟩
      · rw [if_neg h2]
        exact ⟨iff_of_false (by decide) h1,
          iff_of_false (by decide) h2,
          iff_of_true rfl ⟨not_lt.mp h1, not_lt.mp h2⟩⟩

/-- C1 witness: the theorem applied to the Hemoglobin row (12–16). -/
theorem inclusive_range_bounds_witness :
    List.lookup "Hemoglobin" NORMAL_RANGES = some (some 12, some 16, "g/dL")
  ∧ ((evaluate_record ⟨"Hemoglobin", .num 12, ""⟩).Status = "Normal"
      ∧ (evaluate_record ⟨"Hemoglobin", .num 16, ""⟩).Status = "Normal") :=
  ⟨by decide, (inclusive_range_bounds "Hemoglobin" 12 16 "g/dL" (by decide)).1⟩

/-- Boolean rule matching coincides with the propositional reading:
every condition of the rule is matched by some result row. -/
theorem ruleMatches_iff (results : List OutRecord) (rule : DiseaseRule) :
    ruleMatches results rule = true ↔
      ∀ c ∈ rule.conditions, ∃ r ∈ results, r.Test = c.1 ∧ r.Status = c.2 := by
  simp [ruleMatches, List.all_eq_true, List.any_eq_true, Bool.and_eq_true,
    beq_iff_eq]

/-- C3: the matcher emits a rule's finding iff every (biomarker, status)
pair of the rule is matched by some record; rules are independent and
findings appear in declaration order; the Polycythemia finding appears
with both Hemoglobin:High and Cholesterol:Low present and not with only
one of them. -/
theorem disease_matcher_iff (results : List OutRecord) :
    (∀ rule ∈ DISEASE_RULES,
      ((⟨rule.disease, rule.advice⟩ : Finding)
          ∈ check_disease_combinations results ↔
        ∀ c ∈ rule.conditions, ∃ r ∈ results, r.Test = c.1 ∧ r.Status = c.2))
  ∧ check_disease_combinations results
      = (DISEASE_RULES.filter (ruleMatches results)).map
          (fun rule => ⟨rule.disease, rule.advice⟩)
  ∧ check_disease_combinations
        [⟨"Hemoglobin", .num 17, "", "High", none⟩,
         ⟨"Cholesterol", .num 1, "", "Low", none⟩]
      = [⟨"Possible Polycythemia or metabolic disorder",
          "Consult a hematologist; unusual profile, detailed tests needed."⟩]
  ∧ check_disease_combinations [⟨"Hemoglobin", .num 17, "", "High", none⟩] = []
  ∧ check_disease_combinations [⟨"Cholesterol", .num 1, "", "Low", none⟩] = [] := by
  refine ⟨?_, ?_, by decide, by decide, by decide⟩
  · intro rule hrule
    constructor
    · intro hmem
      rw [check_disease_combinations, List.mem_filterMap] at hmem
      obtain ⟨rule', hrule', hsome⟩ := hmem
      by_cases hm : ruleMatches results rule'
      · rw [if_pos hm] at hsome
        have heq := Option.some.inj hsome
        have hsame : rule' = rule := by
          fin_cases hrule <;> fin_cases hrule' <;>
            first | rfl | (exact absurd heq (by decide))
        subst hsame
        exact (ruleMatches_iff results rule').mp hm
      · rw [if_neg hm] at hsome
        exact Option.noConfusion hsome
    · intro hall
      rw [check_disease_combinations, List.mem_filterMap]
      refine ⟨rule, hrule, ?_⟩
      rw [if_pos ((ruleMatches_iff results rule).mpr hall)]
  · rw [check_disease_combinations]
    exact filterMap_if _ _ _

/-- C3 witness: the Polycythemia rule's finding is emitted for a set
containing Hemoglobin:High and Cholesterol:Low, via the theorem's iff. -/
theorem disease_matcher_iff_witness :
    (⟨"Possible Polycythemia or metabolic disorder",
      "Consult a hematologist; unusual profile, detailed tests needed."⟩ : Finding)
      ∈ check_disease_combinations
          [⟨"Hemoglobin", .num 17, "", "High", none⟩,
           ⟨"Cholesterol", .num 1, "", "Low", none⟩] :=
  ((disease_matcher_iff _).1
      { conditions := [("Hemoglobin", "High"), ("Cholesterol", "Low")],
        disease := "Possible Polycythemia or metabolic disorder",
        advice := "Consult a hematologist; unusual profile, detailed tests needed." }
      (by decide)).mpr (by decide)

/-- C4 counterexample: `"Foobar"` has no reference range, yet a slash
value makes its record Normal, not Unknown — the blood-pressure branch
fires for any test name. -/
theorem unknown_test_slash_value_not_unknown :
    List.lookup (normalize_test_name "Foobar") NORMAL_RANGES = none
  ∧ (evaluate_record ⟨"Foobar", .str "120/80", ""⟩).Status = "Normal"
  ∧ (evaluate_record ⟨"Foobar", .str "120/80", ""⟩).Recommendation
      = some "Value below normal — consider medical follow-up." :=
  ⟨by decide, by decide, by decide⟩

/-- C4 amended: a record whose canonical test name has no range row
yields Unknown with the no-reference-range message, provided its value
is not a slash string and parses as a number. -/
theorem unknown_test_numeric_value_unknown (rec : InRecord)
    (hl : List.lookup (normalize_test_name rec.Test) NORMAL_RANGES = none)
    (hs : isSlashStr rec.Value = false)
    (hq : (floatOf rec.Value).isSome = true) :
    (evaluate_record rec).Status = "Unknown"
  ∧ (evaluate_record rec).Recommendation
      = some "No reference range available for this test." := by
  obtain ⟨t, v, u⟩ := rec
  have hnum : ∀ q : ℚ, evalNumeric (normalize_test_name t) q
      = ("Unknown", some "No reference range available for this test.") := by
    intro q
    unfold evalNumeric
    rw [hl]
  cases v with
  | num q =>
    rw [evaluate_record_num]
    exact ⟨by rw [show (evalNumeric (normalize_test_name t) q).1 = _ from by rw [hnum]],
           by rw [show (evalNumeric (normalize_test_name t) q).2 = _ from by rw [hnum]]⟩
  | str s =>
    have hc : hasChar s '/' = false := by simpa [isSlashStr] using hs
    cases hq' : parseFloatPy s with
    | none => simp [floatOf, hq'] at hq
    | some val =>
      rw [evaluate_record_str_num t s u val hc hq']
      exact ⟨by rw [show (evalNumeric (normalize_test_name t) val).1 = _ from by rw [hnum]],
             by rw [show (evalNumeric (normalize_test_name t) val).2 = _ from by rw [hnum]]⟩

/-- C4 amended witness: the theorem applied to `("Foobar", 5)`. -/
theorem unknown_test_numeric_value_unknown_witness :
    (evaluate_record ⟨"Foobar", .num 5, ""⟩).Status = "Unknown"
  ∧ (evaluate_record ⟨"Foobar", .num 5, ""⟩).Recommendation
      = some "No reference range available for this test." :=
  unknown_test_numeric_value_unknown ⟨"Foobar", .num 5, ""⟩
    (by decide) (by decide) (by decide)

/-- An association-list member is found by lookup when the keys are
distinct. -/
theorem lookup_of_mem {α β} [BEq α] [LawfulBEq α] {l : List (α × β)}
    (hnd : (l.map Prod.fst).Nodup) {k : α} {b : β} (hm : (k, b) ∈ l) :
    List.lookup k l = some b := by
  induction l with
  | nil => simp at hm
  | cons p t ih =>
    obtain ⟨k', b'⟩ := p
    simp only [List.map_cons, List.nodup_cons] at hnd
    rcases List.mem_cons.mp hm with heq | hmt
    · obtain ⟨rfl, rfl⟩ := Prod.mk.injEq .. ▸ heq
      exact List.lookup_cons_self
    · have hne : (k == k') = false := by
        rw [beq_eq_false_iff_ne]
        rintro rfl
        exact hnd.1 (List.mem_map_of_mem Prod.fst hmt)
      rw [List.lookup_cons, hne]
      exact ih hnd.2 hmt

/-- If no value is associated to a key in `mapping`, its lookup fails. -/
theorem lookup_none_of_forall_not_mem {k : String}
    (h : ∀ c, (k, c) ∉ mapping) : List.lookup k mapping = none := by
  rw [List.lookup_eq_none_iff]
  intro p hp
  rw [bne_iff_ne]
  intro heq
  exact h p.2 (by rw [heq]; simpa using hp)

/-- Unfolding of `normalize_test_name` with its local `n` inlined. -/
theorem normalize_test_name_eq (name : String) :
    normalize_test_name name =
      match List.lookup (pyStrip (pyLower name)) mapping with
      | some v => v
      | none =>
        match List.find?
            (fun kv => containsSub kv.1 (pyStrip (pyLower name))) mapping with
        | some kv => kv.2
        | none => titlePy (pyStrip (pyLower name)) := rfl

/-- C6: the normalizer lower-cases and trims, then returns an exact alias
match; failing that, the target of the first alias (in declaration
order) occurring as a substring; failing that, the title-cased text.
Totality holds by construction (the embedding is a total function on
strings). -/
theorem normalizer_three_stages (s : String) :
    (∀ c, (pyStrip (pyLower s), c) ∈ mapping → normalize_test_name s = c)
  ∧ ((∀ c, (pyStrip (pyLower s), c) ∉ mapping) →
      ∀ l₁ kv l₂, mapping = l₁ ++ kv :: l₂ →
        containsSub kv.1 (pyStrip (pyLower s)) = true →
        (∀ kv' ∈ l₁, containsSub kv'.1 (pyStrip (pyLower s)) = false) →
        normalize_test_name s = kv.2)
  ∧ ((∀ c, (pyStrip (pyLower s), c) ∉ mapping) →
      (∀ kv ∈ mapping, containsSub kv.1 (pyStrip (pyLower s)) = false) →
      normalize_test_name s = titlePy (pyStrip (pyLower s)))
  ∧ normalize_test_name "Hb" = "Hemoglobin"
  ∧ normalize_test_name " Blood  Sugar " = "Glucose"
  ∧ normalize_test_name "bone density" = "Bone Density" := by
  refine ⟨?_, ?_, ?_, by decide, by decide, by decide⟩
  · intro c hc
    have hlk : List.lookup (pyStrip (pyLower s)) mapping = some c :=
      lookup_of_mem (by decide) hc
    rw [normalize_test_name_eq, hlk]
  · intro hnone l₁ kv l₂ hsplit hkv hl₁
    have hlk := lookup_none_of_forall_not_mem hnone
    have hfind : (mapping.find? fun kv => containsSub kv.1 (pyStrip (pyLower s)))
        = some kv := by
      rw [hsplit, List.find?_append]
      have h1 : (l₁.find? fun kv => containsSub kv.1 (pyStrip (pyLower s)))
          = none := List.find?_eq_none.mpr (by intro x hx; simp [hl₁ x hx])
      have h2 : (List.find?
            (fun kv => containsSub kv.1 (pyStrip (pyLower s))) (kv :: l₂))
          = some kv :=
        @List.find?_cons_of_pos _ (fun kv => containsSub kv.1 (pyStrip (pyLower s)))
          kv l₂ hkv
      rw [h1, h2]
      rfl
    rw [normalize_test_name_eq, hlk, hfind]
  · intro hnone hall
    have hlk := lookup_none_of_forall_not_mem hnone
    have hfind : (mapping.find? fun kv => containsSub kv.1 (pyStrip (pyLower s)))
        = none := List.find?_eq_none.mpr (by intro x hx; simp [hall x hx])
    rw [normalize_test_name_eq, hlk, hfind]

/-- C6 witness: the exact-match stage applied to `"Hb"`. -/
theorem normalizer_three_stages_witness :
    (pyStrip (pyLower "Hb"), "Hemoglobin") ∈ mapping
  ∧ normalize_test_name "Hb" = "Hemoglobin" :=
  ⟨by decide, (normalizer_three_stages "Hb").1 "Hemoglobin" (by decide)⟩

/-- A record that is not a slash string can only be Low when its
canonical test name has a row in the range table. -/
theorem low_status_needs_range (rec : InRecord)
    (hs : isSlashStr rec.Value = false)
    (hlow : (evaluate_record rec).Status = "Low") :
    ∃ e, List.lookup ((evaluate_record rec).Test) NORMAL_RANGES = some e := by
  obtain ⟨t, v, u⟩ := rec
  cases v with
  | num q =>
    rw [evaluate_record_num] at hlow ⊢
    obtain ⟨mn, mxO, u', hl, -⟩ := evalNumeric_low _ _ hlow
    exact ⟨_, hl⟩
  | str s =>
    have hc : hasChar s '/' = false := by simpa [isSlashStr] using hs
    cases hq : parseFloatPy s with
    | none =>
      rw [evaluate_record_str_fail t s u hc hq] at hlow
      simp at hlow
    | some val =>
      rw [evaluate_record_str_num t s u val hc hq] at hlow ⊢
      obtain ⟨mn, mxO, u', hl, -⟩ := evalNumeric_low _ _ hlow
      exact ⟨_, hl⟩

/-- C10 counterexample: a record set produced by the evaluator in which
the Osteoporosis Risk finding IS emitted — a slash value under the test
name `calcium` is classified by the blood-pressure branch and gets
status Low. -/
theorem osteoporosis_emitted :
    ({ Disease := "Osteoporosis Risk",
       Advice := "Bone weakness possible; increase Vitamin D and Calcium intake." } : Finding)
      ∈ check_disease_combinations
          (evaluateAll [⟨"calcium", .str "50/40", ""⟩, ⟨"vit d", .num 10, ""⟩]) := by
  decide

/-- C10 amended: when no input value is a slash string, the evaluator can
never assign Calcium status Low (Calcium has no range row), so the
Osteoporosis Risk finding is never emitted. -/
theorem osteoporosis_needs_slash_value (records : List InRecord)
    (h : ∀ r ∈ records, isSlashStr r.Value = false) :
    ({ Disease := "Osteoporosis Risk",
       Advice := "Bone weakness possible; increase Vitamin D and Calcium intake." } : Finding)
      ∉ check_disease_combinations (evaluateAll records) := by
  intro hmem
  rw [check_disease_combinations, List.mem_filterMap] at hmem
  obtain ⟨rule, hrule, hsome⟩ := hmem
  by_cases hm : ruleMatches (evaluateAll records) rule
  · rw [if_pos hm] at hsome
    have heq := Option.some.inj hsome
    fin_cases hrule
    · exact absurd heq (by decide)
    · exact absurd heq (by decide)
    · have hall := (ruleMatches_iff _ _).mp hm
      obtain ⟨r, hr, hTest, hStatus⟩ :=
        hall ("Calcium", "Low") (by decide)
      rw [evaluateAll, List.mem_map] at hr
      obtain ⟨r0, hr0, rfl⟩ := hr
      obtain ⟨e, he⟩ := low_status_needs_range r0 (h r0 hr0) hStatus
      rw [hTest] at he
      rw [show List.lookup "Calcium" NORMAL_RANGES = none from by decide] at he
      exact Option.noConfusion he
  · rw [if_neg hm] at hsome
    exact Option.noConfusion hsome

/-- C10 amended witness: the theorem applied to a batch whose only value
is numeric. -/
theorem osteoporosis_needs_slash_value_witness :
    ({ Disease := "Osteoporosis Risk",
       Advice := "Bone weakness possible; increase Vitamin D and Calcium intake." } : Finding)
      ∉ check_disease_combinations (evaluateAll [⟨"calcium", .num 9, ""⟩]) :=
  osteoporosis_needs_slash_value [⟨"calcium", .num 9, ""⟩] (by decide)

end HealthReport
